import Mathlib

/-!
# Verification of the TomTom Routing API request builders

Shallow embedding of `src/main.py`: four request-builder functions
(`calculate_route`, `calculate_reachable_range`, `batch_routing`,
`matrix_routing`), the sidebar parameter normalization (`common_params`,
avoidance-set serialization), and the per-tab UI actions that gate on the
API key.  The HTTP transport (the `requests` library) and the JSON-decode
accessor of a response are external collaborators; they are modelled as a
`Transport` oracle mapping a built request to either a transport error or
a response carrying raw text and an optional decoded JSON value.
-/

namespace TomTom

/-- JSON-shaped values: the decoded form of response bodies and the
structures serialized into POST request bodies.  Numbers are modelled as
exact rationals (the coordinate values the program passes through are
decimal literals). -/
inductive Json : Type
  | null : Json
  | bool (b : Bool) : Json
  | num (q : Rat) : Json
  | str (s : String) : Json
  | arr (elems : List Json) : Json
  | obj (fields : List (String × Json)) : Json

/-- HTTP method of a built request (`requests.get` / `requests.post`). -/
inductive Method : Type
  | get : Method
  | post : Method
  deriving DecidableEq

/-- A built HTTP request exactly as handed to the `requests` collaborator:
method, URL, headers, the query parameters after the collaborator drops
`None`-valued entries, and the JSON structure encoded into the body (if
any). -/
structure HttpRequest : Type where
  method : Method
  url : String
  headers : List (String × String)
  query : List (String × String)
  body : Option Json

/-- A received HTTP response as the collaborator exposes it: the raw body
text, and the JSON-decode accessor `response.json()` which may fail
(`none` models a `json.JSONDecodeError`). -/
structure HttpResponse : Type where
  text : String
  json : Option Json

/-- A network-level failure (connection refused, timeout, DNS failure)
raised by the transport collaborator. -/
structure TransportError : Type where
  message : String
  deriving DecidableEq

/-- The transport oracle: issuing a built request either fails at the
network level or yields a response. -/
def Transport : Type := HttpRequest → Except TransportError HttpResponse

/-- What a builder function hands back on a completed HTTP exchange: the
Python return value (a decoded JSON mapping, or `{}` on decode failure)
together with the `st.error` messages it displayed. -/
structure BuilderReturn : Type where
  value : Json
  errorMessages : List String

/-- One full builder invocation: the requests it issued through the
transport, and either the propagated transport error or the value
returned to the caller. -/
structure RunResult : Type where
  calls : List HttpRequest
  outcome : Except TransportError BuilderReturn

/-- The `route_params` dict consumed by `dict.get` with defaults in
`calculate_route`, `batch_routing` and `matrix_routing`: each of the five
option fields is either present with a string value or absent. -/
structure RouteParams : Type where
  routeRepresentation : Option String := none
  computeTravelTimeFor : Option String := none
  routeType : Option String := none
  traffic : Option String := none
  avoid : Option String := none
  deriving DecidableEq

/-- The five-field options dict plus the API key, as assembled identically
at `src/main.py` lines 16-23 (`calculate_route`), 63-70 (`batch_routing`
items) and 94-101 (`matrix_routing`): each field read with
`route_params.get(field, default)`. -/
def route_query_params (route_params : RouteParams) (api_key : String) :
    List (String × String) :=
  [ ("routeRepresentation", route_params.routeRepresentation.getD "summaryOnly"),
    ("computeTravelTimeFor", route_params.computeTravelTimeFor.getD "all"),
    ("routeType", route_params.routeType.getD "fastest"),
    ("traffic", route_params.traffic.getD "true"),
    ("avoid", route_params.avoid.getD "unpavedRoads"),
    ("key", api_key) ]

/-- The GET request built by `calculate_route` (src/main.py lines 15-23):
URL path embeds `"{start_coords}:{end_coords}"`, query is the five route
options plus the key, no headers, no body. -/
def calculate_route_request (api_key start_coords end_coords : String)
    (route_params : RouteParams) : HttpRequest :=
  { method := Method.get
  , url := "https://api.tomtom.com/routing/1/calculateRoute/" ++ start_coords
      ++ ":" ++ end_coords ++ "/json"
  , headers := []
  , query := route_query_params route_params api_key
  , body := none }

/-- The shared `try: return response.json() except json.JSONDecodeError`
tail of all four builders: on success the decoded value is returned with
no messages; on decode failure two `st.error` messages are emitted (the
mode-specific banner and the raw response text) and `{}` is returned. -/
def decode_or_report (label : String) (response : HttpResponse) : BuilderReturn :=
  match response.json with
  | some j => { value := j, errorMessages := [] }
  | none =>
      { value := Json.obj []
      , errorMessages :=
          [ "Failed to decode JSON response for " ++ label ++ ". Raw response:"
          , response.text ] }

/-- `calculate_route` (src/main.py lines 11-30) run against a transport:
builds the GET request, issues it once, and decodes the response. -/
def calculate_route (transport : Transport) (api_key start_coords end_coords : String)
    (route_params : RouteParams) : RunResult :=
  let request := calculate_route_request api_key start_coords end_coords route_params
  match transport request with
  | Except.error e => { calls := [request], outcome := Except.error e }
  | Except.ok response =>
      { calls := [request], outcome := Except.ok (decode_or_report "Single Route" response) }

/-- The `budgets` dict consumed by `budgets.get(...)` in
`calculate_reachable_range`: each budget field is either present (with
its value as the transport renders it into the query string) or absent. -/
structure Budgets : Type where
  timeBudgetInSec : Option String := none
  distanceBudgetInMeters : Option String := none
  fuelBudgetInLiters : Option String := none
  deriving DecidableEq

/-- Models the `requests` collaborator's query preparation: parameters
whose value is `None` are dropped from the encoded query string; present
values are kept in order. -/
def prepare_query (params : List (String × Option String)) :
    List (String × String) :=
  params.filterMap (fun p => p.2.map (fun v => (p.1, v)))

/-- The POST request built by `calculate_reachable_range` (src/main.py
lines 37-44): URL path embeds the origin, the params dict holds the three
`budgets.get(...)` lookups (absent ones become `None` and are dropped by
the collaborator) plus the key, and no body is sent. -/
def calculate_reachable_range_request (api_key origin : String)
    (budgets : Budgets) : HttpRequest :=
  { method := Method.post
  , url := "https://api.tomtom.com/routing/1/calculateReachableRange/" ++ origin ++ "/json"
  , headers := []
  , query := prepare_query
      [ ("timeBudgetInSec", budgets.timeBudgetInSec),
        ("distanceBudgetInMeters", budgets.distanceBudgetInMeters),
        ("fuelBudgetInLiters", budgets.fuelBudgetInLiters),
        ("key", some api_key) ]
  , body := none }

/-- `calculate_reachable_range` (src/main.py lines 33-50) run against a
transport. -/
def calculate_reachable_range (transport : Transport) (api_key origin : String)
    (budgets : Budgets) : RunResult :=
  let request := calculate_reachable_range_request api_key origin budgets
  match transport request with
  | Except.error e => { calls := [request], outcome := Except.error e }
  | Except.ok response =>
      { calls := [request]
      , outcome := Except.ok (decode_or_report "Reachable Range" response) }

/-- One batch item (src/main.py lines 61-71): a sub-query path built from
one (start, end) pair and its own copy of the options-plus-key params. -/
structure BatchItem : Type where
  query : String
  params : List (String × String)

/-- Builds one batch item from a (start_coords, end_coords) pair. -/
def batch_item (api_key : String) (route_params : RouteParams)
    (route : String × String) : BatchItem :=
  { query := "/routing/1/calculateRoute/" ++ route.1 ++ ":" ++ route.2 ++ "/json"
  , params := route_query_params route_params api_key }

/-- The JSON encoding of one batch item inside the `json.dumps(payload)`
body. -/
def batch_item_json (item : BatchItem) : Json :=
  Json.obj
    [ ("query", Json.str item.query)
    , ("params", Json.obj (item.params.map (fun q => (q.1, Json.str q.2)))) ]

/-- The POST request built by `batch_routing` (src/main.py lines 57-74):
fixed URL, JSON content-type header, no query parameters, and a body
`{"batchItems": [...]}` with one entry per input pair in order. -/
def batch_routing_request (api_key : String) (routes : List (String × String))
    (route_params : RouteParams) : HttpRequest :=
  { method := Method.post
  , url := "https://api.tomtom.com/routing/1/batch/sync/json"
  , headers := [("Content-Type", "application/json")]
  , query := []
  , body := some (Json.obj
      [ ("batchItems",
         Json.arr (routes.map (fun r => batch_item_json (batch_item api_key route_params r)))) ]) }

/-- `batch_routing` (src/main.py lines 53-80) run against a transport. -/
def batch_routing (transport : Transport) (api_key : String)
    (routes : List (String × String)) (route_params : RouteParams) : RunResult :=
  let request := batch_routing_request api_key routes route_params
  match transport request with
  | Except.error e => { calls := [request], outcome := Except.error e }
  | Except.ok response =>
      { calls := [request]
      , outcome := Except.ok (decode_or_report "Batch Routing" response) }

/-- One matrix point `{"point": {"latitude": lat, "longitude": lon}}`
built from a coordinate pair (src/main.py lines 91-92). -/
def matrix_point_json (point : Rat × Rat) : Json :=
  Json.obj
    [ ("point", Json.obj
        [ ("latitude", Json.num point.1), ("longitude", Json.num point.2) ]) ]

/-- The POST request built by `matrix_routing` (src/main.py lines 88-102):
fixed URL, JSON content-type header, the five route options plus key as
query parameters, and a body with the origins and destinations lists of
structured point objects. -/
def matrix_routing_request (api_key : String)
    (origins destinations : List (Rat × Rat)) (route_params : RouteParams) : HttpRequest :=
  { method := Method.post
  , url := "https://api.tomtom.com/routing/1/matrix/sync/json"
  , headers := [("Content-Type", "application/json")]
  , query := route_query_params route_params api_key
  , body := some (Json.obj
      [ ("origins", Json.arr (origins.map matrix_point_json))
      , ("destinations", Json.arr (destinations.map matrix_point_json)) ]) }

/-- `matrix_routing` (src/main.py lines 83-108) run against a transport. -/
def matrix_routing (transport : Transport) (api_key : String)
    (origins destinations : List (Rat × Rat)) (route_params : RouteParams) : RunResult :=
  let request := matrix_routing_request api_key origins destinations route_params
  match transport request with
  | Except.error e => { calls := [request], outcome := Except.error e }
  | Except.ok response =>
      { calls := [request]
      , outcome := Except.ok (decode_or_report "Matrix Routing" response) }

/-- Avoidance-set serialization from the sidebar (src/main.py line 134):
`",".join(avoid) if avoid else ""` — Python list truthiness makes the
empty selection serialize to the empty string. -/
def serialize_avoid (avoid : List String) : String :=
  if avoid = [] then "" else String.intercalate "," avoid

/-- The sidebar's `common_params` dict (src/main.py lines 129-135): all
five option fields present, the avoidance multiselect serialized. -/
def common_params (route_representation compute_travel_time_for route_type traffic : String)
    (avoid : List String) : RouteParams :=
  { routeRepresentation := some route_representation
  , computeTravelTimeFor := some compute_travel_time_for
  , routeType := some route_type
  , traffic := some traffic
  , avoid := some (serialize_avoid avoid) }

/-- The Single Route tab's button action (src/main.py lines 153-161):
`if api_key:` gates the builder call — an empty key (falsy in Python)
shows an error and invokes no builder, hence makes no transport call. -/
def single_route_action (transport : Transport) (api_key : String)
    (start_coords end_coords : String) (params : RouteParams) : Option RunResult :=
  if api_key = "" then none
  else some (calculate_route transport api_key start_coords end_coords params)

/-- The Reachable Range tab's button action (src/main.py lines 174-186). -/
def reachable_range_action (transport : Transport) (api_key : String)
    (origin : String) (budgets : Budgets) : Option RunResult :=
  if api_key = "" then none
  else some (calculate_reachable_range transport api_key origin budgets)

/-- The Batch Routing tab's button action (src/main.py lines 210-216). -/
def batch_routing_action (transport : Transport) (api_key : String)
    (routes : List (String × String)) (params : RouteParams) : Option RunResult :=
  if api_key = "" then none
  else some (batch_routing transport api_key routes params)

/-- The Matrix Routing tab's button action (src/main.py lines 252-258). -/
def matrix_routing_action (transport : Transport) (api_key : String)
    (origins destinations : List (Rat × Rat)) (params : RouteParams) : Option RunResult :=
  if api_key = "" then none
  else some (matrix_routing transport api_key origins destinations params)

/-- A transport that always answers with the given response. -/
def const_transport (response : HttpResponse) : Transport :=
  fun _ => Except.ok response

/-- A transport that always fails with the given network error. -/
def failing_transport (e : TransportError) : Transport :=
  fun _ => Except.error e

/-- Observation helper: the list of batch items in a built request's body,
when the body has the `{"batchItems": [...]}` shape. -/
def batch_items_of (r : HttpRequest) : Option (List Json) :=
  match r.body with
  | some (Json.obj [("batchItems", Json.arr items)]) => some items
  | _ => none

/-- Observation helper: the origin and destination point lists in a built
request's body, when the body has the matrix shape. -/
def matrix_points_of (r : HttpRequest) : Option (List Json × List Json) :=
  match r.body with
  | some (Json.obj [("origins", Json.arr os), ("destinations", Json.arr ds)]) =>
      some (os, ds)
  | _ => none

/-! ## Helper lemmas -/

/-- The accumulator of `String.intercalate.go` distributes over a left
append. -/
theorem intercalate_go_append (s : String) (as : List String) :
    ∀ (a b : String),
      String.intercalate.go (a ++ b) s as = a ++ String.intercalate.go b s as := by
  induction as with
  | nil => intro a b; rfl
  | cons c cs ih =>
      intro a b
      show String.intercalate.go (a ++ b ++ s ++ c) s cs
        = a ++ String.intercalate.go (b ++ s ++ c) s cs
      have h1 : a ++ b ++ s ++ c = a ++ (b ++ s ++ c) := by
        simp [String.append_assoc]
      rw [h1, ih]

/-- The empty avoidance selection serializes to the empty string. -/
theorem serialize_avoid_nil : serialize_avoid [] = "" := rfl

/-- A one-element avoidance selection serializes to that element. -/
theorem serialize_avoid_singleton (x : String) : serialize_avoid [x] = x := rfl

/-- Comma-join recurrence for a selection of at least two elements. -/
theorem serialize_avoid_cons_cons (x y : String) (ys : List String) :
    serialize_avoid (x :: y :: ys) = x ++ "," ++ serialize_avoid (y :: ys) := by
  show String.intercalate.go (x ++ "," ++ y) "," ys
    = x ++ "," ++ String.intercalate.go y "," ys
  have h1 : x ++ "," ++ y = (x ++ ",") ++ y := rfl
  rw [h1, intercalate_go_append "," ys (x ++ ",") y, String.append_assoc]

/-- Serialization introduces no character beyond the elements and the
comma separators; in particular it introduces no whitespace. -/
theorem serialize_avoid_space_free (xs : List String)
    (h : ∀ x ∈ xs, ' ' ∉ x.data) : ' ' ∉ (serialize_avoid xs).data := by
  induction xs with
  | nil => simp [serialize_avoid_nil]
  | cons x ys ih =>
      cases ys with
      | nil =>
          rw [serialize_avoid_singleton]
          exact h x (by simp)
      | cons y zs =>
          rw [serialize_avoid_cons_cons]
          intro hc
          rw [String.data_append, String.data_append] at hc
          rcases List.mem_append.mp hc with hc1 | hc2
          · rcases List.mem_append.mp hc1 with hx | hcomma
            · exact h x (by simp) hx
            · simp at hcomma
          · exact ih (fun z hz => h z (List.mem_cons_of_mem x hz)) hc2

/-! ## Claim theorems -/

/-- C1: building a Single Route request for origin `(42.37806, -87.94427)`
and destination `(42.39081, -87.95857)` with default RouteOptions (an
empty `route_params` dict, so every `dict.get` default applies) yields a
GET URL whose path segment is `"42.37806,-87.94427:42.39081,-87.95857"`
and query parameters exactly
`routeRepresentation=summaryOnly, computeTravelTimeFor=all,
routeType=fastest, traffic=true, avoid=unpavedRoads` plus the API key. -/
theorem single_route_default_request (api_key : String) :
    (calculate_route_request api_key "42.37806,-87.94427" "42.39081,-87.95857" {}).url
      = "https://api.tomtom.com/routing/1/calculateRoute/"
          ++ "42.37806,-87.94427:42.39081,-87.95857" ++ "/json"
    ∧ (calculate_route_request api_key "42.37806,-87.94427" "42.39081,-87.95857" {}).query
      = [ ("routeRepresentation", "summaryOnly"), ("computeTravelTimeFor", "all"),
          ("routeType", "fastest"), ("traffic", "true"), ("avoid", "unpavedRoads"),
          ("key", api_key) ]
    ∧ (calculate_route_request api_key "42.37806,-87.94427" "42.39081,-87.95857" {}).method
      = Method.get :=
  ⟨rfl, rfl, rfl⟩

/-- C9: whenever JSON decoding of the response body fails, each of the
four builder functions returns the empty mapping `{}` to its caller, so
the returned value at a decode failure (raw text `t`) is identical to the
returned value at a successful response whose body is the empty JSON
object. -/
theorem decode_failure_indistinguishable_from_empty (t : String)
    (api_key start_coords end_coords origin : String)
    (route_params : RouteParams) (budgets : Budgets)
    (routes : List (String × String)) (origins destinations : List (Rat × Rat)) :
    ((calculate_route (const_transport ⟨t, none⟩) api_key start_coords end_coords
        route_params).outcome.map BuilderReturn.value = Except.ok (Json.obj [])
      ∧ (calculate_route (const_transport ⟨t, none⟩) api_key start_coords end_coords
          route_params).outcome.map BuilderReturn.value
        = (calculate_route (const_transport ⟨"{}", some (Json.obj [])⟩) api_key
            start_coords end_coords route_params).outcome.map BuilderReturn.value)
    ∧ ((calculate_reachable_range (const_transport ⟨t, none⟩) api_key origin
        budgets).outcome.map BuilderReturn.value = Except.ok (Json.obj [])
      ∧ (calculate_reachable_range (const_transport ⟨t, none⟩) api_key origin
          budgets).outcome.map BuilderReturn.value
        = (calculate_reachable_range (const_transport ⟨"{}", some (Json.obj [])⟩)
            api_key origin budgets).outcome.map BuilderReturn.value)
    ∧ ((batch_routing (const_transport ⟨t, none⟩) api_key routes
        route_params).outcome.map BuilderReturn.value = Except.ok (Json.obj [])
      ∧ (batch_routing (const_transport ⟨t, none⟩) api_key routes
          route_params).outcome.map BuilderReturn.value
        = (batch_routing (const_transport ⟨"{}", some (Json.obj [])⟩) api_key routes
            route_params).outcome.map BuilderReturn.value)
    ∧ ((matrix_routing (const_transport ⟨t, none⟩) api_key origins destinations
        route_params).outcome.map BuilderReturn.value = Except.ok (Json.obj [])
      ∧ (matrix_routing (const_transport ⟨t, none⟩) api_key origins destinations
          route_params).outcome.map BuilderReturn.value
        = (matrix_routing (const_transport ⟨"{}", some (Json.obj [])⟩) api_key
            origins destinations route_params).outcome.map BuilderReturn.value) :=
  ⟨⟨rfl, rfl⟩, ⟨rfl, rfl⟩, ⟨rfl, rfl⟩, ⟨rfl, rfl⟩⟩

/-- C10: request construction is deterministic and depends on nothing but
the builder's explicit inputs: for every pair of transport environments,
each builder issues the same single request — the one computed from the
inputs alone — so two invocations with the same inputs construct an
identical URL, query parameters, and body. -/
theorem deterministic_request_construction (t₁ t₂ : Transport)
    (api_key start_coords end_coords origin : String) (route_params : RouteParams)
    (budgets : Budgets) (routes : List (String × String))
    (origins destinations : List (Rat × Rat)) :
    ((calculate_route t₁ api_key start_coords end_coords route_params).calls
        = [calculate_route_request api_key start_coords end_coords route_params]
      ∧ (calculate_route t₁ api_key start_coords end_coords route_params).calls
        = (calculate_route t₂ api_key start_coords end_coords route_params).calls)
    ∧ ((calculate_reachable_range t₁ api_key origin budgets).calls
        = [calculate_reachable_range_request api_key origin budgets]
      ∧ (calculate_reachable_range t₁ api_key origin budgets).calls
        = (calculate_reachable_range t₂ api_key origin budgets).calls)
    ∧ ((batch_routing t₁ api_key routes route_params).calls
        = [batch_routing_request api_key routes route_params]
      ∧ (batch_routing t₁ api_key routes route_params).calls
        = (batch_routing t₂ api_key routes route_params).calls)
    ∧ ((matrix_routing t₁ api_key origins destinations route_params).calls
        = [matrix_routing_request api_key origins destinations route_params]
      ∧ (matrix_routing t₁ api_key origins destinations route_params).calls
        = (matrix_routing t₂ api_key origins destinations route_params).calls) := by
  have hroute : ∀ t : Transport, (calculate_route t api_key start_coords end_coords
      route_params).calls
      = [calculate_route_request api_key start_coords end_coords route_params] := by
    intro t
    cases h : t (calculate_route_request api_key start_coords end_coords route_params) <;>
      simp [calculate_route, h]
  have hrange : ∀ t : Transport, (calculate_reachable_range t api_key origin budgets).calls
      = [calculate_reachable_range_request api_key origin budgets] := by
    intro t
    cases h : t (calculate_reachable_range_request api_key origin budgets) <;>
      simp [calculate_reachable_range, h]
  have hbatch : ∀ t : Transport, (batch_routing t api_key routes route_params).calls
      = [batch_routing_request api_key routes route_params] := by
    intro t
    cases h : t (batch_routing_request api_key routes route_params) <;>
      simp [batch_routing, h]
  have hmatrix : ∀ t : Transport, (matrix_routing t api_key origins destinations
      route_params).calls
      = [matrix_routing_request api_key origins destinations route_params] := by
    intro t
    cases h : t (matrix_routing_request api_key origins destinations route_params) <;>
      simp [matrix_routing, h]
  exact ⟨⟨hroute t₁, (hroute t₁).trans (hroute t₂).symm⟩,
         ⟨hrange t₁, (hrange t₁).trans (hrange t₂).symm⟩,
         ⟨hbatch t₁, (hbatch t₁).trans (hbatch t₂).symm⟩,
         ⟨hmatrix t₁, (hmatrix t₁).trans (hmatrix t₂).symm⟩⟩

/-- C7: avoidance-set serialization is the comma-join of its elements
preserving input order — the empty selection yields the empty string
(never a placeholder), a singleton yields the element itself, longer
selections satisfy the head-plus-comma recurrence, and the join adds no
whitespace around elements that contain none. -/
theorem avoid_serialization :
    serialize_avoid [] = ""
    ∧ (∀ x, serialize_avoid [x] = x)
    ∧ (∀ x y ys, serialize_avoid (x :: y :: ys) = x ++ "," ++ serialize_avoid (y :: ys))
    ∧ (∀ xs, (∀ x ∈ xs, ' ' ∉ x.data) → ' ' ∉ (serialize_avoid xs).data) :=
  ⟨serialize_avoid_nil, serialize_avoid_singleton, serialize_avoid_cons_cons,
   serialize_avoid_space_free⟩

/-- Witness for C7 at the concrete selection `["tollRoads", "ferries"]`. -/
theorem avoid_serialization_witness :
    serialize_avoid ["tollRoads", "ferries"] = "tollRoads" ++ "," ++ serialize_avoid ["ferries"]
    ∧ ' ' ∉ (serialize_avoid ["tollRoads", "ferries"]).data :=
  ⟨avoid_serialization.2.2.1 "tollRoads" "ferries" [],
   avoid_serialization.2.2.2 ["tollRoads", "ferries"] (by decide)⟩

/-- C3: for every Budget input to the Reachable Range builder, only the
present budget fields appear in the built request's query (in dict order,
followed by the key); an absent field's key never appears, with no null
or zero placeholder, and the request body is empty. -/
theorem reachable_range_budget_presence (api_key origin : String) (budgets : Budgets) :
    (calculate_reachable_range_request api_key origin budgets).body = none
    ∧ (calculate_reachable_range_request api_key origin budgets).query.map Prod.fst
        = (if budgets.timeBudgetInSec.isSome then ["timeBudgetInSec"] else [])
          ++ (if budgets.distanceBudgetInMeters.isSome then ["distanceBudgetInMeters"] else [])
          ++ (if budgets.fuelBudgetInLiters.isSome then ["fuelBudgetInLiters"] else [])
          ++ ["key"]
    ∧ (∀ v, ("timeBudgetInSec", v)
          ∈ (calculate_reachable_range_request api_key origin budgets).query
        ↔ budgets.timeBudgetInSec = some v)
    ∧ (∀ v, ("distanceBudgetInMeters", v)
          ∈ (calculate_reachable_range_request api_key origin budgets).query
        ↔ budgets.distanceBudgetInMeters = some v)
    ∧ (∀ v, ("fuelBudgetInLiters", v)
          ∈ (calculate_reachable_range_request api_key origin budgets).query
        ↔ budgets.fuelBudgetInLiters = some v) := by
  obtain ⟨tb, db, fb⟩ := budgets
  cases tb <;> cases db <;> cases fb <;>
    simp [calculate_reachable_range_request, prepare_query, eq_comm]

/-- Witness for C3 at a budget with only the time field present: the
query carries exactly that field and the key, and the value is the one
supplied. -/
theorem reachable_range_budget_presence_witness :
    (calculate_reachable_range_request "K" "1,2" ⟨some "3600", none, none⟩).query.map Prod.fst
      = ["timeBudgetInSec", "key"]
    ∧ ("timeBudgetInSec", "3600")
        ∈ (calculate_reachable_range_request "K" "1,2" ⟨some "3600", none, none⟩).query :=
  ⟨by simpa using (reachable_range_budget_presence "K" "1,2" ⟨some "3600", none, none⟩).2.1,
   ((reachable_range_budget_presence "K" "1,2" ⟨some "3600", none, none⟩).2.2.1 "3600").mpr rfl⟩

/-- C5: the Batch builder's request body holds exactly one sub-query
entry per input pair, in input order; the entry at position `i` carries
the path built from pair `i` and its own copy of the shared
options-plus-key parameters. -/
theorem batch_body_entries (api_key : String) (routes : List (String × String))
    (route_params : RouteParams) (_h1 : 1 ≤ routes.length) (_h2 : routes.length ≤ 5) :
    (batch_items_of (batch_routing_request api_key routes route_params)).map List.length
      = some routes.length
    ∧ ∀ (i : Nat) (s e : String), routes[i]? = some (s, e) →
        ((batch_items_of (batch_routing_request api_key routes route_params)).getD [])[i]?
          = some (Json.obj
              [ ("query", Json.str ("/routing/1/calculateRoute/" ++ s ++ ":" ++ e ++ "/json"))
              , ("params", Json.obj ((route_query_params route_params api_key).map
                  (fun q => (q.1, Json.str q.2)))) ]) := by
  have hb : batch_items_of (batch_routing_request api_key routes route_params)
      = some (routes.map (fun r => batch_item_json (batch_item api_key route_params r))) := rfl
  constructor
  · rw [hb]; simp
  · intro i s e hi
    rw [hb]
    simp [hi, batch_item, batch_item_json]

/-- Witness for C5 at two concrete coordinate pairs. -/
theorem batch_body_entries_witness :
    (1 : Nat) ≤ ([("42.37806,-87.94427", "42.39081,-87.95857"), ("1,2", "3,4")] :
        List (String × String)).length
    ∧ (batch_items_of (batch_routing_request "K"
          [("42.37806,-87.94427", "42.39081,-87.95857"), ("1,2", "3,4")] {})).map List.length
        = some 2 :=
  ⟨by decide,
   (batch_body_entries "K" [("42.37806,-87.94427", "42.39081,-87.95857"), ("1,2", "3,4")] {}
      (by decide) (by decide)).1⟩

/-- C6: the Matrix builder's request body holds exactly one origin point
object per origin and one destination point object per destination, each
a structured `{"point": {"latitude": ..., "longitude": ...}}` object and
never a string, while the route options and the API key travel as query
parameters of the POST request. -/
theorem matrix_body_points (api_key : String) (origins destinations : List (Rat × Rat))
    (route_params : RouteParams) :
    (matrix_points_of (matrix_routing_request api_key origins destinations route_params)).map
        (fun x => (x.1.length, x.2.length)) = some (origins.length, destinations.length)
    ∧ (∀ (i : Nat) (lat lon : Rat), origins[i]? = some (lat, lon) →
        (((matrix_points_of (matrix_routing_request api_key origins destinations
            route_params)).getD ([], [])).1)[i]?
          = some (Json.obj [("point",
              Json.obj [("latitude", Json.num lat), ("longitude", Json.num lon)])]))
    ∧ (∀ (i : Nat) (lat lon : Rat), destinations[i]? = some (lat, lon) →
        (((matrix_points_of (matrix_routing_request api_key origins destinations
            route_params)).getD ([], [])).2)[i]?
          = some (Json.obj [("point",
              Json.obj [("latitude", Json.num lat), ("longitude", Json.num lon)])]))
    ∧ (∀ j ∈ ((matrix_points_of (matrix_routing_request api_key origins destinations
          route_params)).getD ([], [])).1, ∀ s, j ≠ Json.str s)
    ∧ (∀ j ∈ ((matrix_points_of (matrix_routing_request api_key origins destinations
          route_params)).getD ([], [])).2, ∀ s, j ≠ Json.str s)
    ∧ (matrix_routing_request api_key origins destinations route_params).query
        = route_query_params route_params api_key
    ∧ (matrix_routing_request api_key origins destinations route_params).method
        = Method.post := by
  have hm : matrix_points_of (matrix_routing_request api_key origins destinations route_params)
      = some (origins.map matrix_point_json, destinations.map matrix_point_json) := rfl
  refine ⟨?_, ?_, ?_, ?_, ?_, rfl, rfl⟩
  · rw [hm]; simp
  · intro i lat lon hi
    rw [hm]
    simp [hi, matrix_point_json]
  · intro i lat lon hi
    rw [hm]
    simp [hi, matrix_point_json]
  · rw [hm]
    intro j hj s
    simp only [Option.getD_some, List.mem_map] at hj
    obtain ⟨p, _, hp⟩ := hj
    rw [← hp]
    simp [matrix_point_json]
  · rw [hm]
    intro j hj s
    simp only [Option.getD_some, List.mem_map] at hj
    obtain ⟨p, _, hp⟩ := hj
    rw [← hp]
    simp [matrix_point_json]

/-- Witness for C6's indexed conjuncts at one concrete origin and one
concrete destination. -/
theorem matrix_body_points_witness :
    (matrix_points_of (matrix_routing_request "K" [((42378 : Rat)/1000, -(87944 : Rat)/1000)]
        [((42390 : Rat)/1000, -(87958 : Rat)/1000)] {})).map
        (fun x => (x.1.length, x.2.length)) = some (1, 1) :=
  (matrix_body_points "K" [((42378 : Rat)/1000, -(87944 : Rat)/1000)]
    [((42390 : Rat)/1000, -(87958 : Rat)/1000)] {}).1

/-- C8: every builder invocation performs exactly one HTTP call, and a
network-level failure of that call is propagated immediately to the
caller unchanged (never retried, never transformed). -/
theorem one_call_and_error_propagation (transport : Transport)
    (api_key start_coords end_coords origin : String) (route_params : RouteParams)
    (budgets : Budgets) (routes : List (String × String))
    (origins destinations : List (Rat × Rat)) :
    ((calculate_route transport api_key start_coords end_coords route_params).calls.length = 1
      ∧ ∀ e, transport (calculate_route_request api_key start_coords end_coords route_params)
          = Except.error e →
        (calculate_route transport api_key start_coords end_coords route_params).outcome
          = Except.error e)
    ∧ ((calculate_reachable_range transport api_key origin budgets).calls.length = 1
      ∧ ∀ e, transport (calculate_reachable_range_request api_key origin budgets)
          = Except.error e →
        (calculate_reachable_range transport api_key origin budgets).outcome = Except.error e)
    ∧ ((batch_routing transport api_key routes route_params).calls.length = 1
      ∧ ∀ e, transport (batch_routing_request api_key routes route_params) = Except.error e →
        (batch_routing transport api_key routes route_params).outcome = Except.error e)
    ∧ ((matrix_routing transport api_key origins destinations route_params).calls.length = 1
      ∧ ∀ e, transport (matrix_routing_request api_key origins destinations route_params)
          = Except.error e →
        (matrix_routing transport api_key origins destinations route_params).outcome
          = Except.error e) := by
  refine ⟨⟨?_, ?_⟩, ⟨?_, ?_⟩, ⟨?_, ?_⟩, ⟨?_, ?_⟩⟩
  · cases h : transport (calculate_route_request api_key start_coords end_coords route_params) <;>
      simp [calculate_route, h]
  · intro e he; simp [calculate_route, he]
  · cases h : transport (calculate_reachable_range_request api_key origin budgets) <;>
      simp [calculate_reachable_range, h]
  · intro e he; simp [calculate_reachable_range, he]
  · cases h : transport (batch_routing_request api_key routes route_params) <;>
      simp [batch_routing, h]
  · intro e he; simp [batch_routing, he]
  · cases h : transport (matrix_routing_request api_key origins destinations route_params) <;>
      simp [matrix_routing, h]
  · intro e he; simp [matrix_routing, he]

/-- Witness for C8: a transport that refuses the connection makes the
Single Route builder issue exactly one call and surface that very
error. -/
theorem one_call_and_error_propagation_witness :
    (calculate_route (failing_transport ⟨"connection refused"⟩) "K" "1,2" "3,4" {}).calls.length
      = 1
    ∧ (calculate_route (failing_transport ⟨"connection refused"⟩) "K" "1,2" "3,4" {}).outcome
      = Except.error ⟨"connection refused"⟩ :=
  ⟨(one_call_and_error_propagation (failing_transport ⟨"connection refused"⟩) "K" "1,2" "3,4"
      "o" {} {} [] [] []).1.1,
   (one_call_and_error_propagation (failing_transport ⟨"connection refused"⟩) "K" "1,2" "3,4"
      "o" {} {} [] [] []).1.2 ⟨"connection refused"⟩ rfl⟩

/-- C2 counterexample: the value a builder returns to its caller after a
decode failure does not carry the raw response text — at raw body
`"<html>Error</html>"` the Single Route builder returns exactly the same
value as at the successfully decoded body `"{}"`, namely the empty
mapping, so the returned result is no DecodeFailure carrying the raw
text. -/
theorem decode_failure_value_carries_no_raw_text :
    (calculate_route (const_transport ⟨"<html>Error</html>", none⟩) "K" "1,2" "3,4" {}).outcome.map
        BuilderReturn.value
      = (calculate_route (const_transport ⟨"{}", some (Json.obj [])⟩) "K" "1,2" "3,4"
          {}).outcome.map BuilderReturn.value
    ∧ (calculate_route (const_transport ⟨"<html>Error</html>", none⟩) "K" "1,2" "3,4"
        {}).outcome.map BuilderReturn.value = Except.ok (Json.obj []) :=
  ⟨rfl, rfl⟩

/-- C2 (amended): for every response body that is not parseable as JSON,
each of the four builder functions catches the decode error (no exception
terminates the caller), displays two error messages whose second carries
the original raw response text verbatim, and returns the empty mapping
`{}` to its caller. -/
theorem decode_failure_reports_raw_text_verbatim (t : String)
    (api_key start_coords end_coords origin : String) (route_params : RouteParams)
    (budgets : Budgets) (routes : List (String × String))
    (origins destinations : List (Rat × Rat)) :
    (calculate_route (const_transport ⟨t, none⟩) api_key start_coords end_coords
        route_params).outcome
      = Except.ok
          { value := Json.obj []
          , errorMessages :=
              ["Failed to decode JSON response for Single Route. Raw response:", t] }
    ∧ (calculate_reachable_range (const_transport ⟨t, none⟩) api_key origin budgets).outcome
      = Except.ok
          { value := Json.obj []
          , errorMessages :=
              ["Failed to decode JSON response for Reachable Range. Raw response:", t] }
    ∧ (batch_routing (const_transport ⟨t, none⟩) api_key routes route_params).outcome
      = Except.ok
          { value := Json.obj []
          , errorMessages :=
              ["Failed to decode JSON response for Batch Routing. Raw response:", t] }
    ∧ (matrix_routing (const_transport ⟨t, none⟩) api_key origins destinations
        route_params).outcome
      = Except.ok
          { value := Json.obj []
          , errorMessages :=
              ["Failed to decode JSON response for Matrix Routing. Raw response:", t] } :=
  ⟨rfl, rfl, rfl, rfl⟩

/-- C4 counterexample: invoking the Single Route builder directly with an
empty API key raises nothing and performs a transport call — the request
goes out carrying `key=""` — contradicting the claim that a
MissingCredential error is raised before any network call. -/
theorem empty_key_builder_still_calls :
    (calculate_route (const_transport ⟨"{}", some (Json.obj [])⟩) "" "1,2" "3,4" {}).calls
      = [calculate_route_request "" "1,2" "3,4" {}]
    ∧ ("key", "") ∈ (calculate_route_request "" "1,2" "3,4" {}).query
    ∧ (calculate_route (const_transport ⟨"{}", some (Json.obj [])⟩) "" "1,2" "3,4" {}).outcome
      = Except.ok { value := Json.obj [], errorMessages := [] } :=
  ⟨rfl, by decide, rfl⟩

/-- C4 (amended): the builder functions themselves perform no API-key
check — invoked with an empty key each still issues its single transport
call, passing the supplied key through unchanged as the `key` parameter
(no default is substituted inside the builders).  The empty-key gate
lives in the caller-side tab actions: with an empty key every action
invokes no builder, so no transport call occurs on that path. -/
theorem empty_key_gate_in_actions_not_builders (transport : Transport)
    (start_coords end_coords origin : String) (route_params : RouteParams)
    (budgets : Budgets) (routes : List (String × String))
    (origins destinations : List (Rat × Rat)) :
    ((calculate_route transport "" start_coords end_coords route_params).calls
        = [calculate_route_request "" start_coords end_coords route_params]
      ∧ (calculate_reachable_range transport "" origin budgets).calls
        = [calculate_reachable_range_request "" origin budgets]
      ∧ (batch_routing transport "" routes route_params).calls
        = [batch_routing_request "" routes route_params]
      ∧ (matrix_routing transport "" origins destinations route_params).calls
        = [matrix_routing_request "" origins destinations route_params])
    ∧ (∀ api_key v, (("key", v)
          ∈ (calculate_route_request api_key start_coords end_coords route_params).query)
        ↔ v = api_key)
    ∧ (single_route_action transport "" start_coords end_coords route_params = none
      ∧ reachable_range_action transport "" origin budgets = none
      ∧ batch_routing_action transport "" routes route_params = none
      ∧ matrix_routing_action transport "" origins destinations route_params = none) := by
  refine ⟨⟨?_, ?_, ?_, ?_⟩, ?_, rfl, rfl, rfl, rfl⟩
  · cases h : transport (calculate_route_request "" start_coords end_coords route_params) <;>
      simp [calculate_route, h]
  · cases h : transport (calculate_reachable_range_request "" origin budgets) <;>
      simp [calculate_reachable_range, h]
  · cases h : transport (batch_routing_request "" routes route_params) <;>
      simp [batch_routing, h]
  · cases h : transport (matrix_routing_request "" origins destinations route_params) <;>
      simp [matrix_routing, h]
  · intro api_key v
    simp [calculate_route_request, route_query_params, eq_comm]

/-- Witness for the amended C4 at a concrete transport: the empty-key UI
action invokes nothing, and the request built for key `"K"` carries
exactly that key. -/
theorem empty_key_gate_witness :
    single_route_action (const_transport ⟨"{}", some (Json.obj [])⟩) "" "1,2" "3,4" {} = none
    ∧ ("key", "K") ∈ (calculate_route_request "K" "1,2" "3,4" {}).query :=
  ⟨(empty_key_gate_in_actions_not_builders (const_transport ⟨"{}", some (Json.obj [])⟩)
      "1,2" "3,4" "o" {} {} [] [] []).2.2.1,
   ((empty_key_gate_in_actions_not_builders (const_transport ⟨"{}", some (Json.obj [])⟩)
      "1,2" "3,4" "o" {} {} [] [] []).2.1 "K" "K").mpr rfl⟩

end TomTom
